import Mathlib

/-!
Shallow embedding of the cart-and-checkout flow of
`src/frontend/src/App.js` (AgriMap Market storefront client), together with
theorems settling the spec's testable properties about it.

Request/response interaction is modelled by passing the relevant responses
in explicitly: a transport result is `Except Unit α` (`.error ()` is a
transport failure), and the payment-status poller consumes a list holding
the response to each successive status request.
-/

namespace Agri

/-- A payment/session status object as returned by
`GET /api/checkout/status/:id` (the fields the client reads). -/
structure StatusData where
  payment_status : String
  status : String
deriving DecidableEq, Repr

/-- The poller's state values (`paymentStatus` in `PaymentSuccess`):
`checking` initially, then one of the terminal states. -/
inductive PollOutcome where
  | checking
  | success
  | expired
  | timeout
  | error
deriving DecidableEq, Repr

/-- Observable outcome of running `pollPaymentStatus`: the final state,
the number of status requests issued, the delays scheduled between
invocations, and the recorded payment details (`setPaymentDetails`). -/
structure PollResult where
  finalStatus : PollOutcome
  requests : Nat
  waits : List Nat
  paymentDetails : Option StatusData
deriving DecidableEq, Repr

/-- `maxAttempts` constant in `pollPaymentStatus`. -/
def maxAttempts : Nat := 5

/-- `pollInterval` constant in `pollPaymentStatus` (milliseconds). -/
def pollInterval : Nat := 2000

/-- Embedding of `pollPaymentStatus(sessionId, attempts)` from
`src/frontend/src/App.js` lines 683-710. `responses` lists the transport
result of each successive `GET /api/checkout/status/:id`; an empty list
means the pending request never resolves, leaving the state `checking`. -/
def pollPaymentStatus : List (Except Unit StatusData) → Nat → PollResult
  | responses, attempts =>
    if maxAttempts ≤ attempts then
      ⟨.timeout, 0, [], none⟩
    else
      match responses with
      | [] => ⟨.checking, 1, [], none⟩
      | .error _ :: _ => ⟨.error, 1, [], none⟩
      | .ok data :: rest =>
        if data.payment_status = "paid" then
          ⟨.success, 1, [], some data⟩
        else if data.status = "expired" then
          ⟨.expired, 1, [], none⟩
        else
          let next := pollPaymentStatus rest (attempts + 1)
          ⟨next.finalStatus, 1 + next.requests, pollInterval :: next.waits,
            next.paymentDetails⟩

/-- A status response that triggers neither terminal branch of the poll
loop: the request succeeded, `payment_status` is not `"paid"` and `status`
is not `"expired"`. -/
def nonTerminalResp : Except Unit StatusData → Bool
  | .error _ => false
  | .ok d => decide (d.payment_status ≠ "paid") && decide (d.status ≠ "expired")

/-- When every response in the trace is non-terminal and enough responses
remain for the attempts left, the poll loop runs out its attempt budget:
it settles into `timeout`, issues one request per remaining attempt, and
schedules a `pollInterval` delay after each. -/
theorem pollPaymentStatus_nonTerminal_run
    (responses : List (Except Unit StatusData)) (attempts : Nat)
    (hall : ∀ r ∈ responses, nonTerminalResp r = true)
    (hlen : maxAttempts - attempts ≤ responses.length) :
    pollPaymentStatus responses attempts =
      ⟨.timeout, maxAttempts - attempts,
        List.replicate (maxAttempts - attempts) pollInterval, none⟩ := by
  induction responses generalizing attempts with
  | nil =>
    have h5 : maxAttempts ≤ attempts := by
      simp only [List.length_nil] at hlen
      omega
    have h0 : maxAttempts - attempts = 0 := by omega
    simp [pollPaymentStatus, h5, h0]
  | cons r rest ih =>
    by_cases h : maxAttempts ≤ attempts
    · have h0 : maxAttempts - attempts = 0 := by omega
      rw [pollPaymentStatus.eq_def]
      simp [h, h0]
    · have hr := hall r (List.mem_cons_self r rest)
      match r with
      | .error e => simp [nonTerminalResp] at hr
      | .ok d =>
        simp only [nonTerminalResp, Bool.and_eq_true, decide_eq_true_eq] at hr
        have hrest : ∀ s ∈ rest, nonTerminalResp s = true := fun s hs =>
          hall s (List.mem_cons_of_mem _ hs)
        have hlen2 : maxAttempts - (attempts + 1) ≤ rest.length := by
          simp only [List.length_cons] at hlen
          omega
        have hsub : maxAttempts - attempts = (maxAttempts - (attempts + 1)) + 1 := by
          omega
        rw [pollPaymentStatus.eq_def]
        simp only [h, if_false, hr.1, hr.2, if_neg, ite_false,
          ih (attempts + 1) hrest hlen2, hsub]
        rw [List.replicate_succ, Nat.one_add]

/-- C1: on a trace in which no response is `paid`, none is `expired`, and
no request fails, the poller issues exactly 5 status requests (so at most
5), schedules a fixed 2000 ms delay between successive invocations, and
settles into the terminal state `timeout` with no payment details. -/
theorem pollPaymentStatus_timeout_after_five
    (responses : List (Except Unit StatusData))
    (hall : ∀ r ∈ responses, nonTerminalResp r = true)
    (hlen : maxAttempts ≤ responses.length) :
    pollPaymentStatus responses 0 =
      ⟨.timeout, 5, List.replicate 5 2000, none⟩ := by
  have := pollPaymentStatus_nonTerminal_run responses 0 hall
    (by simpa using hlen)
  simpa [maxAttempts, pollInterval] using this

/-- Witness for C1: a concrete trace of five pending responses. -/
theorem pollPaymentStatus_timeout_after_five_witness :
    pollPaymentStatus
        (List.replicate 5 (Except.ok ⟨"unpaid", "open"⟩)) 0 =
      ⟨.timeout, 5, List.replicate 5 2000, none⟩ :=
  pollPaymentStatus_timeout_after_five
    (List.replicate 5 (Except.ok ⟨"unpaid", "open"⟩))
    (by decide) (by decide)

/-- C2: a poll whose response has `payment_status = "paid"` makes the
poller settle into `success` on that round-trip, record the payment
details, and issue no further requests (one request in total, no waits). -/
theorem pollPaymentStatus_paid_success
    (d : StatusData) (rest : List (Except Unit StatusData)) (attempts : Nat)
    (hatt : attempts < maxAttempts)
    (hpaid : d.payment_status = "paid") :
    pollPaymentStatus (Except.ok d :: rest) attempts =
      ⟨.success, 1, [], some d⟩ := by
  have h : ¬ maxAttempts ≤ attempts := by omega
  simp [pollPaymentStatus, h, hpaid]

/-- Witness for C2. -/
theorem pollPaymentStatus_paid_success_witness :
    pollPaymentStatus
        (Except.ok ⟨"paid", "complete"⟩ :: [Except.ok ⟨"unpaid", "open"⟩]) 0 =
      ⟨.success, 1, [], some ⟨"paid", "complete"⟩⟩ :=
  pollPaymentStatus_paid_success ⟨"paid", "complete"⟩
    [Except.ok ⟨"unpaid", "open"⟩] 0 (by decide) (by decide)

/-- C3: a poll whose response has `status = "expired"` and
`payment_status ≠ "paid"` makes the poller settle into `expired` and issue
no further requests. -/
theorem pollPaymentStatus_expired_stop
    (d : StatusData) (rest : List (Except Unit StatusData)) (attempts : Nat)
    (hatt : attempts < maxAttempts)
    (hnp : d.payment_status ≠ "paid")
    (hexp : d.status = "expired") :
    pollPaymentStatus (Except.ok d :: rest) attempts =
      ⟨.expired, 1, [], none⟩ := by
  have h : ¬ maxAttempts ≤ attempts := by omega
  simp [pollPaymentStatus, h, hnp, hexp]

/-- Witness for C3. -/
theorem pollPaymentStatus_expired_stop_witness :
    pollPaymentStatus
        (Except.ok ⟨"unpaid", "expired"⟩ :: [Except.ok ⟨"unpaid", "open"⟩]) 0 =
      ⟨.expired, 1, [], none⟩ :=
  pollPaymentStatus_expired_stop ⟨"unpaid", "expired"⟩
    [Except.ok ⟨"unpaid", "open"⟩] 0 (by decide) (by decide) (by decide)

/-- C4: a poll whose status request fails with a transport error makes the
poller settle into `error` immediately, however many attempts remain: one
request in total, no retry scheduled. -/
theorem pollPaymentStatus_transport_error_stop
    (rest : List (Except Unit StatusData)) (attempts : Nat)
    (hatt : attempts < maxAttempts) :
    pollPaymentStatus (Except.error () :: rest) attempts =
      ⟨.error, 1, [], none⟩ := by
  have h : ¬ maxAttempts ≤ attempts := by omega
  simp [pollPaymentStatus, h]

/-- Witness for C4: an error on the very first attempt, with responses
still available for the remaining four attempts. -/
theorem pollPaymentStatus_transport_error_stop_witness :
    pollPaymentStatus
        (Except.error () :: List.replicate 4 (Except.ok ⟨"unpaid", "open"⟩)) 0 =
      ⟨.error, 1, [], none⟩ :=
  pollPaymentStatus_transport_error_stop
    (List.replicate 4 (Except.ok ⟨"unpaid", "open"⟩)) 0 (by decide)

/-! ## Cart synchronizer -/

/-- One element of the cart list returned by `GET /api/cart/:session`: the
client reads `cart_item.quantity` and the backend-supplied `total_price`. -/
structure CartItemView where
  productId : String
  quantity : Int
  total_price : Int
deriving DecidableEq, Repr

/-- A cart request as issued by the mutation handlers: HTTP method, the
product id, the quantity sent (when the request carries one), and the
session key. -/
structure CartRequest where
  method : String
  productId : String
  quantity : Option Int
  userSession : String
deriving DecidableEq, Repr

/-- Result of running a cart mutation handler: the request it issued, the
client-side `cartItems` state afterwards, and whether `fetchCartItems` was
invoked. -/
structure MutationOutcome where
  request : CartRequest
  cartItems : List CartItemView
  refreshIssued : Bool
deriving DecidableEq, Repr

/-- Embedding of `fetchCartItems` (`App.js` lines 797-804): on success the
whole `cartItems` state is replaced by the response body; on error the
state is left unchanged (the handler only logs). -/
def fetchCartItems (fetchResult : Except Unit (List CartItemView))
    (cartItems : List CartItemView) : List CartItemView :=
  match fetchResult with
  | .ok body => body
  | .error _ => cartItems

/-- Embedding of `handleAddToCart` (`App.js` lines 827-839): POST
`/api/cart/add` with quantity 1; on success refetch the cart, on error
rethrow without refetching. `mres` is the mutation's transport result and
`fres` the refetch's. -/
def handleAddToCart (mres : Except Unit Unit)
    (fres : Except Unit (List CartItemView)) (sessionId : String)
    (cartItems : List CartItemView) (productId : String) : MutationOutcome :=
  let req : CartRequest := ⟨"POST", productId, some 1, sessionId⟩
  match mres with
  | .error _ => ⟨req, cartItems, false⟩
  | .ok _ => ⟨req, fetchCartItems fres cartItems, true⟩

/-- Embedding of `handleUpdateQuantity` (`App.js` lines 842-850): PUT
`/api/cart/:session/:product?quantity=newQuantity` with the quantity
passed through verbatim; on success refetch the cart. -/
def handleUpdateQuantity (mres : Except Unit Unit)
    (fres : Except Unit (List CartItemView)) (sessionId : String)
    (cartItems : List CartItemView) (productId : String)
    (newQuantity : Int) : MutationOutcome :=
  let req : CartRequest := ⟨"PUT", productId, some newQuantity, sessionId⟩
  match mres with
  | .error _ => ⟨req, cartItems, false⟩
  | .ok _ => ⟨req, fetchCartItems fres cartItems, true⟩

/-- Embedding of `handleRemoveItem` (`App.js` lines 853-862): DELETE
`/api/cart/:session/:product`; on success refetch the cart. -/
def handleRemoveItem (mres : Except Unit Unit)
    (fres : Except Unit (List CartItemView)) (sessionId : String)
    (cartItems : List CartItemView) (productId : String) : MutationOutcome :=
  let req : CartRequest := ⟨"DELETE", productId, none, sessionId⟩
  match mres with
  | .error _ => ⟨req, cartItems, false⟩
  | .ok _ => ⟨req, fetchCartItems fres cartItems, true⟩

/-- C5: every successful cart mutation (add, updateQuantity, remove) is
followed by a refresh that replaces the whole client-side cart list with
the list the backend reports, whatever the prior client state — no
optimistic update, no merging. -/
theorem cart_mutation_refreshes_from_backend
    (sessionId productId : String) (newQuantity : Int)
    (cartItems backendCart : List CartItemView)
    (mres : Except Unit Unit) (fres : Except Unit (List CartItemView))
    (hm : mres = Except.ok ()) (hf : fres = Except.ok backendCart) :
    (handleAddToCart mres fres sessionId cartItems productId).cartItems
        = backendCart ∧
    (handleAddToCart mres fres sessionId cartItems productId).refreshIssued
        = true ∧
    (handleUpdateQuantity mres fres sessionId cartItems productId
        newQuantity).cartItems = backendCart ∧
    (handleUpdateQuantity mres fres sessionId cartItems productId
        newQuantity).refreshIssued = true ∧
    (handleRemoveItem mres fres sessionId cartItems productId).cartItems
        = backendCart ∧
    (handleRemoveItem mres fres sessionId cartItems productId).refreshIssued
        = true := by
  subst hm hf
  simp [handleAddToCart, handleUpdateQuantity, handleRemoveItem,
    fetchCartItems]

/-- Witness for C5: a concrete non-empty prior cart replaced by a concrete
backend cart after each mutation. -/
theorem cart_mutation_refreshes_from_backend_witness :
    (handleAddToCart (Except.ok ()) (Except.ok [⟨"p2", 3, 30⟩]) "s"
        [⟨"p1", 1, 10⟩] "p2").cartItems = [⟨"p2", 3, 30⟩] ∧
    (handleAddToCart (Except.ok ()) (Except.ok [⟨"p2", 3, 30⟩]) "s"
        [⟨"p1", 1, 10⟩] "p2").refreshIssued = true ∧
    (handleUpdateQuantity (Except.ok ()) (Except.ok [⟨"p2", 3, 30⟩]) "s"
        [⟨"p1", 1, 10⟩] "p2" 3).cartItems = [⟨"p2", 3, 30⟩] ∧
    (handleUpdateQuantity (Except.ok ()) (Except.ok [⟨"p2", 3, 30⟩]) "s"
        [⟨"p1", 1, 10⟩] "p2" 3).refreshIssued = true ∧
    (handleRemoveItem (Except.ok ()) (Except.ok [⟨"p2", 3, 30⟩]) "s"
        [⟨"p1", 1, 10⟩] "p2").cartItems = [⟨"p2", 3, 30⟩] ∧
    (handleRemoveItem (Except.ok ()) (Except.ok [⟨"p2", 3, 30⟩]) "s"
        [⟨"p1", 1, 10⟩] "p2").refreshIssued = true :=
  cart_mutation_refreshes_from_backend "s" "p2" 3 [⟨"p1", 1, 10⟩]
    [⟨"p2", 3, 30⟩] (Except.ok ()) (Except.ok [⟨"p2", 3, 30⟩]) rfl rfl

/-- C8: `handleUpdateQuantity` sends any quantity — zero and negative
included — to the backend verbatim, with no client-side validation or
clamping: the issued PUT request always carries exactly `newQuantity`. -/
theorem handleUpdateQuantity_passes_quantity_through
    (mres : Except Unit Unit) (fres : Except Unit (List CartItemView))
    (sessionId : String) (cartItems : List CartItemView)
    (productId : String) (newQuantity : Int) :
    (handleUpdateQuantity mres fres sessionId cartItems productId
        newQuantity).request =
      ⟨"PUT", productId, some newQuantity, sessionId⟩ := by
  cases mres <;> rfl

/-! ## Checkout initiator -/

/-- Result of `handleCheckout`: the URL the browser was navigated to via
`window.location.href` (if any) and whether an error toast was shown. -/
structure CheckoutOutcome where
  navigatedTo : Option String
  errorToastShown : Bool
deriving DecidableEq, Repr

/-- Embedding of `handleCheckout` (`App.js` lines 865-882). The transport
result carries `response.data.url` as an `Option String` (`none` when the
field is absent); a present-but-empty string is falsy in the source's
`if (response.data.url)` check. On a truthy URL the browser is navigated
there; otherwise an error toast is shown and no navigation happens. -/
def handleCheckout (resp : Except Unit (Option String)) : CheckoutOutcome :=
  match resp with
  | .ok data =>
    match data with
    | some url => if url ≠ "" then ⟨some url, false⟩ else ⟨none, true⟩
    | none => ⟨none, true⟩
  | .error _ => ⟨none, true⟩

/-- C7: when the create-session request succeeds and returns a redirect
URL, the browser is immediately navigated to exactly that URL with no
error shown; when the request fails, an error notification is shown and no
navigation occurs. -/
theorem handleCheckout_redirect_or_stay
    (resp : Except Unit (Option String)) :
    (∀ url : String, url ≠ "" → resp = Except.ok (some url) →
      handleCheckout resp = ⟨some url, false⟩) ∧
    (resp = Except.error () →
      handleCheckout resp = ⟨none, true⟩) := by
  constructor
  · intro url hne hresp
    subst hresp
    simp [handleCheckout, hne]
  · intro hresp
    subst hresp
    rfl

/-- Witness for C7: a concrete successful response navigates, a concrete
failed response toasts and stays. -/
theorem handleCheckout_redirect_or_stay_witness :
    handleCheckout (Except.ok (some "https://pay.example/x")) =
      ⟨some "https://pay.example/x", false⟩ ∧
    handleCheckout (Except.error ()) = ⟨none, true⟩ :=
  ⟨(handleCheckout_redirect_or_stay (Except.ok (some "https://pay.example/x"))).1
      "https://pay.example/x" (by decide) rfl,
    (handleCheckout_redirect_or_stay (Except.error ())).2 rfl⟩

/-! ## Auth bootstrapper -/

/-- A user record as returned by the login exchange
(`POST /api/auth/login`). -/
structure User where
  id : String
  name : String
  email : String
  picture : Option String
deriving DecidableEq, Repr

/-- Does `haystack` start with `needle` (character lists)? -/
def charsStart : List Char → List Char → Bool
  | [], _ => true
  | _ :: _, [] => false
  | n :: ns, h :: hs => (n == h) && charsStart ns hs

/-- JavaScript `haystack.includes(needle)`: does `needle` occur as a
contiguous substring of `haystack`? -/
def charsContain (needle : List Char) : List Char → Bool
  | [] => charsStart needle []
  | h :: hs => charsStart needle (h :: hs) || charsContain needle hs

/-- JavaScript `haystack.includes(needle)` on strings. -/
def jsIncludes (needle haystack : String) : Bool :=
  charsContain needle.data haystack.data

/-- Worker for JavaScript `String.prototype.split` with a non-empty
string separator: scan the haystack, emitting the piece accumulated so
far (in reverse) whenever the separator starts at the current position
and skipping it. `fuel` bounds the scan; callers pass `length + 1`, which
suffices because every step consumes at least one character. -/
def splitCharsGo (sep : List Char) : Nat → List Char → List Char →
    List (List Char)
  | 0, acc, _ => [acc.reverse]
  | _ + 1, acc, [] => [acc.reverse]
  | fuel + 1, acc, c :: cs =>
    if charsStart sep (c :: cs) then
      acc.reverse :: splitCharsGo sep fuel [] (List.drop (sep.length - 1) cs)
    else
      splitCharsGo sep fuel (c :: acc) cs

/-- JavaScript `s.split(sep)` for a non-empty string separator. -/
def jsSplit (sep s : String) : List String :=
  (splitCharsGo sep.data (s.data.length + 1) [] s.data).map
    (fun cs => String.mk cs)

/-- Leading-whitespace removal on character lists. -/
def dropLeadingWs : List Char → List Char
  | [] => []
  | c :: cs => if c.isWhitespace then dropLeadingWs cs else c :: cs

/-- JavaScript `s.trim()`: strip whitespace from both ends. -/
def jsTrim (s : String) : String :=
  String.mk ((dropLeadingWs (dropLeadingWs s.data).reverse).reverse)

/-- The source's extraction
`fragment.split('session_id=')[1].split('&')[0]`; out-of-range JS indexing
is modelled by `getD` (the call site guards that index 1 exists). -/
def extractSessionId (fragment : String) : String :=
  (jsSplit "&" ((jsSplit "session_id=" fragment).getD 1 "")).getD 0 ""

/-- Observable outcome of one run of `handleAuthCallback`: the
`session_id` payloads of the login requests issued, the resulting user,
the URL fragment after the run (the source clears it with
`history.replaceState` only on the success path), and whether an error
toast was shown. -/
structure AuthCallbackOutcome where
  loginPayloads : List String
  user : Option User
  fragmentAfter : String
  errorToastShown : Bool
deriving DecidableEq, Repr

/-- Embedding of `handleAuthCallback` (`App.js` lines 47-89), run on a
page whose URL fragment is `fragment`; `loginResp` gives the transport
result of `POST /api/auth/login` for a given `session_id` payload. The
JS truthiness check `sessionId && sessionId.trim()` is non-emptiness of
the string and of its trimmed form. -/
def handleAuthCallback (fragment : String)
    (loginResp : String → Except Unit User) : AuthCallbackOutcome :=
  if jsIncludes "session_id=" fragment then
    let sessionId := extractSessionId fragment
    if sessionId ≠ "" ∧ jsTrim sessionId ≠ "" then
      match loginResp (jsTrim sessionId) with
      | .ok u => ⟨[jsTrim sessionId], some u, "", false⟩
      | .error _ => ⟨[jsTrim sessionId], none, fragment, true⟩
    else ⟨[], none, fragment, true⟩
  else ⟨[], none, fragment, false⟩

/-- C6: on a page load with fragment `#session_id=abc123` and a
successful exchange, exactly one login request is issued, its payload is
`"abc123"`, the fragment is cleared afterwards, and re-running the
bootstrapper on the cleared fragment (a page reload) issues no further
login request. -/
theorem handleAuthCallback_exchanges_once
    (loginResp : String → Except Unit User) (u : User)
    (h : loginResp "abc123" = Except.ok u) :
    (handleAuthCallback "#session_id=abc123" loginResp).loginPayloads
        = ["abc123"] ∧
    (handleAuthCallback "#session_id=abc123" loginResp).fragmentAfter
        = "" ∧
    (handleAuthCallback
        (handleAuthCallback "#session_id=abc123" loginResp).fragmentAfter
        loginResp).loginPayloads = [] := by
  have hinc : jsIncludes "session_id=" "#session_id=abc123" = true := by
    decide
  have hex : extractSessionId "#session_id=abc123" = "abc123" := by decide
  have htrim : jsTrim "abc123" = "abc123" := by decide
  have hrun : handleAuthCallback "#session_id=abc123" loginResp =
      ⟨["abc123"], some u, "", false⟩ := by
    unfold handleAuthCallback
    rw [hex]
    simp only [hinc, if_true, htrim, h]
    simp
  rw [hrun]
  refine ⟨rfl, rfl, ?_⟩
  unfold handleAuthCallback
  have hninc : jsIncludes "session_id=" "" = false := by decide
  simp [hninc]

/-- Witness for C6: a concrete login oracle that accepts `"abc123"`. -/
theorem handleAuthCallback_exchanges_once_witness :
    (handleAuthCallback "#session_id=abc123"
        (fun _ => Except.ok ⟨"u1", "Asha", "a@b.c", none⟩)).loginPayloads
        = ["abc123"] ∧
    (handleAuthCallback "#session_id=abc123"
        (fun _ => Except.ok ⟨"u1", "Asha", "a@b.c", none⟩)).fragmentAfter
        = "" ∧
    (handleAuthCallback
        (handleAuthCallback "#session_id=abc123"
          (fun _ => Except.ok ⟨"u1", "Asha", "a@b.c", none⟩)).fragmentAfter
        (fun _ => Except.ok ⟨"u1", "Asha", "a@b.c", none⟩)).loginPayloads
        = [] :=
  handleAuthCallback_exchanges_once
    (fun _ => Except.ok ⟨"u1", "Asha", "a@b.c", none⟩)
    ⟨"u1", "Asha", "a@b.c", none⟩ rfl

/-- C10: when the fragment contains `session_id=` but the exchange does
not succeed — the extracted id is empty (outright or after trimming) or
the login request errors — the fragment is left untouched, so it still
contains `session_id=` and a reload would replay the exchange. -/
theorem handleAuthCallback_failure_keeps_fragment
    (fragment : String) (loginResp : String → Except Unit User)
    (hinc : jsIncludes "session_id=" fragment = true)
    (hfail : extractSessionId fragment = "" ∨
      jsTrim (extractSessionId fragment) = "" ∨
      loginResp (jsTrim (extractSessionId fragment)) = Except.error ()) :
    (handleAuthCallback fragment loginResp).fragmentAfter = fragment ∧
    jsIncludes "session_id="
      (handleAuthCallback fragment loginResp).fragmentAfter = true := by
  have hmain : (handleAuthCallback fragment loginResp).fragmentAfter
      = fragment := by
    unfold handleAuthCallback
    rw [hinc]
    simp only [if_true]
    split
    next hid =>
      rcases hfail with h1 | h2 | h3
      · exact absurd h1 hid.1
      · exact absurd h2 hid.2
      · rw [h3]
    next => rfl
  exact ⟨hmain, by rw [hmain]; exact hinc⟩

/-- Witness for C10: a concrete fragment whose exchange is refused by the
backend; the fragment survives. -/
theorem handleAuthCallback_failure_keeps_fragment_witness :
    (handleAuthCallback "#session_id=bad99"
        (fun _ => Except.error ())).fragmentAfter = "#session_id=bad99" ∧
    jsIncludes "session_id="
      (handleAuthCallback "#session_id=bad99"
        (fun _ => Except.error ())).fragmentAfter = true :=
  handleAuthCallback_failure_keeps_fragment "#session_id=bad99"
    (fun _ => Except.error ()) (by decide) (Or.inr (Or.inr rfl))

/-! ## UserProfile redirect -/

/-- Embedding of the `UserProfile` effect (`App.js` lines 135-153): given
the URL fragment, the auth `loading` flag and the current `user`, returns
the navigation target, `none` when the effect returns without
navigating. -/
def userProfileEffect (fragment : String) (loading : Bool)
    (user : Option User) : Option String :=
  if jsIncludes "session_id=" fragment then none
  else if loading then none
  else if !loading && user.isNone then some "/" else none

/-- C9: visiting `/profile` once auth loading has completed, with no user
and no `session_id` in the fragment, navigates to `/`. -/
theorem userProfileEffect_redirects_home
    (fragment : String)
    (hfrag : jsIncludes "session_id=" fragment = false) :
    userProfileEffect fragment false none = some "/" := by
  simp [userProfileEffect, hfrag]

/-- Witness for C9: an empty fragment, loading finished, no user. -/
theorem userProfileEffect_redirects_home_witness :
    userProfileEffect "" false none = some "/" :=
  userProfileEffect_redirects_home "" (by decide)

end Agri
